import Mathlib

/-!
Shallow embedding of `src/seismic_websocket.py`: a long-running WebSocket
client that parses seismic event messages, enriches each with a
reverse-geocoded location, and appends enriched records to a CSV store.

External effects are modelled as explicit outcome parameters:
the result of `json.loads` is an `Option JVal` (`none` = the parser raised),
the geocoder call is a `GeoOutcome`, the pandas `to_csv` append is a
`WriteOutcome`, and one invocation of the websocket library's
`run_forever` is a `RunOutcome`.  Python dict subscripting, list
indexing, `dict.get`, dict item assignment, and the `try`/`except`
blocks of the source are translated step by step.
-/

namespace Seismic

/-- Python/JSON values as produced by `json.loads` (source line 57). -/
inductive JVal where
  | null
  | bool (b : Bool)
  | num (q : Rat)
  | str (s : String)
  | arr (elems : List JVal)
  | obj (fields : List (String × JVal))

/-- Python subscripting `v[k]` with a string key: succeeds on a dict that
holds the key, raises `KeyError` on a dict without it, `TypeError` on any
other value (source lines 58-61). -/
def jGetKey : JVal → String → Except String JVal
  | JVal.obj fields, k =>
    match fields.find? (fun p => p.1 == k) with
    | some p => Except.ok p.2
    | none => Except.error ("KeyError: " ++ k)
  | _, _ => Except.error "TypeError: value is not subscriptable by string key"

/-- Python subscripting `v[i]` with a non-negative integer index:
succeeds on a long-enough list (or string), raises `IndexError` when the
index is out of range, `TypeError` on a non-sequence (source lines 60-61). -/
def jIndex : JVal → Nat → Except String JVal
  | JVal.arr xs, i =>
    match xs.get? i with
    | some v => Except.ok v
    | none => Except.error "IndexError: list index out of range"
  | JVal.str s, i =>
    match s.data.get? i with
    | some c => Except.ok (JVal.str (String.mk [c]))
    | none => Except.error "IndexError: string index out of range"
  | _, _ => Except.error "TypeError: value is not subscriptable by integer index"

/-- Replace the value stored under `k`, keeping its position, or append
`(k, v)` at the end: the semantics of Python dict item assignment on an
insertion-ordered dict. -/
def setKey : List (String × JVal) → String → JVal → List (String × JVal)
  | [], k, v => [(k, v)]
  | (k', v') :: rest, k, v =>
    if k' == k then (k, v) :: rest else (k', v') :: setKey rest k v

/-- Python `info[k] = v` (source line 59): item assignment succeeds on a
dict and raises `TypeError` on any other value. -/
def dictSet : JVal → String → JVal → Except String (List (String × JVal))
  | JVal.obj fields, k, v => Except.ok (setKey fields k v)
  | _, _, _ => Except.error "TypeError: value does not support item assignment"

/-- Python `info.get(k)` on a dict: the stored value, or `None` when the
key is absent (source lines 66-71). -/
def objGet (fields : List (String × JVal)) (k : String) : JVal :=
  match fields.find? (fun p => p.1 == k) with
  | some p => p.2
  | none => JVal.null

/-- The row dict assembled by `process_message` (source lines 65-77); keys
in insertion order, which is exactly the CSV header order. -/
structure EventData where
  action : JVal
  auth : JVal
  unid : JVal
  time : JVal
  mag : JVal
  flynn_region : JVal
  latitude : JVal
  longitude : JVal
  city : String
  state : String
  country : String

/-- The cells of the single CSV row written for an event, in the order the
dict keys were inserted (source lines 65-77), which pandas preserves. -/
def EventData.toRow (ev : EventData) : List JVal :=
  [ev.action, ev.auth, ev.unid, ev.time, ev.mag, ev.flynn_region,
   ev.latitude, ev.longitude, JVal.str ev.city, JVal.str ev.state, JVal.str ev.country]

/-- The 11 column names of the store, in the order of source line 20. -/
def csvHeader : List String :=
  ["action", "auth", "unid", "time", "mag", "flynn_region",
   "latitude", "longitude", "city", "state", "country"]

/-- The CSV store file, as a list of rows of cells.  The header row holds
the column names as strings; data rows hold the Python values written by
pandas. -/
structure CSVFile where
  rows : List (List JVal)

/-- The module-level bootstrap (source lines 19-20): if no file exists at
`CSV_FILE`, write one containing only the header row; otherwise do
nothing. -/
def csv_bootstrap (fs : Option CSVFile) : Option CSVFile :=
  match fs with
  | none => some ⟨[csvHeader.map JVal.str]⟩
  | some f => some f

/-- A structured address returned by the reverse-lookup service: a map
from field names (`city`, `town`, `village`, `state`, `country`, ...) to
string values, per the external-interface contract for the geocoder. -/
structure Address where
  entries : List (String × String)

/-- Python `address.get k` without a default: `some` value or `none`. -/
def Address.find (a : Address) (k : String) : Option String :=
  (a.entries.find? (fun p => p.1 == k)).map (fun p => p.2)

/-- Python `address.get(k, d)`: the stored value, or `d` when `k` is
absent (source lines 30-32). -/
def Address.getD (a : Address) (k : String) (d : String) : String :=
  (a.find k).getD d

/-- Possible outcomes of the external call
`geolocator.reverse((lat, lon), exactly_one=True, timeout=10)`
(source line 27):
`timeout` = it raised `GeocoderTimedOut`; `failure` = it raised any other
exception; `noLocation` = it returned a falsy location (or one with a
falsy `raw`); `located a` = it returned a location whose raw dict yields
`a` under the `"address"` key (`none` = no `"address"` key, so the code's
`raw.get("address", \x7b\x7d)` default applies). -/
inductive GeoOutcome where
  | timeout
  | failure (msg : String)
  | noLocation
  | located (a : Option Address)

/-- Log severities used by the source (`logging.info` / `warning` /
`error` / `exception`). -/
inductive LogLevel where
  | info
  | warning
  | error
  | exception

/-- One emitted log record.  Each constructor corresponds to one logging
call site of the source; the dynamic values interpolated into the message
are carried as arguments. -/
inductive LogEntry where
  | warnGeocoderTimeout (lat lon : JVal)
  | errorFetchingLocation (lat lon : JVal) (msg : String)
  | infoEventSaved (ev : EventData)
  | errorSavingCsv (msg : String)
  | exceptionProcessing
  | infoShutdown
  | exceptionReconnect

/-- The severity each call site logs at. -/
def LogEntry.level : LogEntry → LogLevel
  | LogEntry.warnGeocoderTimeout _ _ => LogLevel.warning
  | LogEntry.errorFetchingLocation _ _ _ => LogLevel.error
  | LogEntry.infoEventSaved _ => LogLevel.info
  | LogEntry.errorSavingCsv _ => LogLevel.error
  | LogEntry.exceptionProcessing => LogLevel.exception
  | LogEntry.infoShutdown => LogLevel.info
  | LogEntry.exceptionReconnect => LogLevel.exception

/-- `get_location` (source lines 22-38): returns the `(city, state,
country)` triple together with the log records it emits.  The
`try`/`except` of the source catches `GeocoderTimedOut` with a warning and
any other exception with an error, and every path falls through to
`return "", "", ""` when no address was extracted, so the function is
total: it never propagates an exception to its caller. -/
def get_location (geo : GeoOutcome) (lat lon : JVal) :
    (String × String × String) × List LogEntry :=
  match geo with
  | GeoOutcome.timeout =>
    (("", "", ""), [LogEntry.warnGeocoderTimeout lat lon])
  | GeoOutcome.failure m =>
    (("", "", ""), [LogEntry.errorFetchingLocation lat lon m])
  | GeoOutcome.noLocation => (("", "", ""), [])
  | GeoOutcome.located a? =>
    let address := a?.getD ⟨[]⟩
    ((address.getD "city" (address.getD "town" (address.getD "village" "")),
      address.getD "state" "",
      address.getD "country" ""),
     [])

/-- Outcome of the external `df.to_csv(CSV_FILE, mode='a', header=False,
index=False)` call (source line 46): it either appends the row or raises
an I/O exception carrying a message. -/
inductive WriteOutcome where
  | ok
  | failure (msg : String)

/-- What a call to `save_to_csv` produces: the store file afterwards, the
log records emitted, the Python value returned to the caller, and whether
an exception propagated out. -/
structure SaveResult where
  fs : Option CSVFile
  logs : List LogEntry
  ret : JVal
  raised : Bool

/-- Appending one row to the file at `CSV_FILE`: pandas `mode='a'` with
`header=False` creates the file holding just the row when it does not
exist, and appends the row otherwise. -/
def appendRowTo (fs : Option CSVFile) (row : List JVal) : Option CSVFile :=
  match fs with
  | none => some ⟨[row]⟩
  | some f => some ⟨f.rows ++ [row]⟩

/-- `save_to_csv` (source lines 40-49): on success the row is appended and
an info record logged; on an I/O error the exception is caught and logged
as an error.  Both branches return `None` (`return` is never written in
the source, and the `except` swallows the exception), so `ret` is
`JVal.null` and `raised` is `false` on every path. -/
def save_to_csv (w : WriteOutcome) (fs : Option CSVFile) (ev : EventData) : SaveResult :=
  match w with
  | WriteOutcome.ok =>
    ⟨appendRowTo fs ev.toRow, [LogEntry.infoEventSaved ev], JVal.null, false⟩
  | WriteOutcome.failure m =>
    ⟨fs, [LogEntry.errorSavingCsv m], JVal.null, false⟩

/-- The parsing prefix of `process_message`'s `try` block (source lines
57-61): `json.loads`, the subscript chain, and the `info['action']`
assignment, each step raising per Python semantics.  Yields the updated
properties dict and the extracted latitude (`coordinates[1]`) and
longitude (`coordinates[0]`).  The source subscripts `data['data']` a
second time on lines 60-61; the mutation of line 59 only touched the
properties sub-dict, so the second lookup is repeated here unchanged. -/
def parse_event (msg : Option JVal) :
    Except String (List (String × JVal) × JVal × JVal) :=
  match msg with
  | none => Except.error "json.loads: JSONDecodeError"
  | some data =>
    match jGetKey data "data" with
    | Except.error e => Except.error e
    | Except.ok d =>
      match jGetKey d "properties" with
      | Except.error e => Except.error e
      | Except.ok props =>
        match jGetKey data "action" with
        | Except.error e => Except.error e
        | Except.ok act =>
          match dictSet props "action" act with
          | Except.error e => Except.error e
          | Except.ok info =>
            match jGetKey data "data" with
            | Except.error e => Except.error e
            | Except.ok d2 =>
              match jGetKey d2 "geometry" with
              | Except.error e => Except.error e
              | Except.ok geom =>
                match jGetKey geom "coordinates" with
                | Except.error e => Except.error e
                | Except.ok coords =>
                  match jIndex coords 1 with
                  | Except.error e => Except.error e
                  | Except.ok latitude =>
                    match jIndex coords 0 with
                    | Except.error e => Except.error e
                    | Except.ok longitude =>
                      Except.ok (info, latitude, longitude)

/-- The `event_data` dict of source lines 65-77, built with `info.get` for
the six property fields (defaulting to `None`), the extracted coordinates,
and the location triple. -/
def build_event (info : List (String × JVal)) (lat lon : JVal)
    (loc : String × String × String) : EventData :=
  { action := objGet info "action"
    auth := objGet info "auth"
    unid := objGet info "unid"
    time := objGet info "time"
    mag := objGet info "mag"
    flynn_region := objGet info "flynn_region"
    latitude := lat
    longitude := lon
    city := loc.1
    state := loc.2.1
    country := loc.2.2 }

/-- What one call to `process_message` produces. -/
structure ProcessResult where
  fs : Option CSVFile
  logs : List LogEntry
  raised : Bool

/-- `process_message` (source lines 52-81): parse, enrich, persist, with
the whole body inside `try ... except Exception`, which logs
`logging.exception("Error processing JSON message")` and returns normally,
so `raised` is `false` on every path. -/
def process_message (msg : Option JVal) (geo : GeoOutcome) (w : WriteOutcome)
    (fs : Option CSVFile) : ProcessResult :=
  match parse_event msg with
  | Except.error _ => ⟨fs, [LogEntry.exceptionProcessing], false⟩
  | Except.ok x =>
    let r := get_location geo x.2.1 x.2.2
    let ev := build_event x.1 x.2.1 x.2.2 r.1
    let sr := save_to_csv w fs ev
    ⟨sr.fs, r.2 ++ sr.logs, false⟩

/-- A sequence of successful `save_to_csv` calls, in order. -/
def saveAll (evs : List EventData) (fs : Option CSVFile) : Option CSVFile :=
  match evs with
  | [] => fs
  | ev :: rest => saveAll rest (save_to_csv WriteOutcome.ok fs ev).fs

/-- Outcome of one invocation of the websocket library's
`ws.run_forever(ping_interval=PING_INTERVAL)` (source line 125):
`closed` = it returned normally after the connection closed or errored
(the library's documented behavior; callbacks do not propagate);
`interrupted` = `KeyboardInterrupt` was raised; `failed` = some other
exception escaped. -/
inductive RunOutcome where
  | closed
  | interrupted
  | failed (msg : String)

/-- Observable actions of the `start_websocket` loop. -/
inductive LoopAction where
  | connect
  | logAction (entry : LogEntry)
  | sleep (seconds : Nat)

/-- The trace of `start_websocket` (source lines 112-131) over a finite
prefix of `run_forever` outcomes: each iteration builds the app and
connects; a normal return loops immediately; `KeyboardInterrupt` logs the
shutdown message and breaks; any other exception is logged with
`logging.exception` and followed by `time.sleep(5)` before the next
iteration. -/
def start_websocket : List RunOutcome → List LoopAction
  | [] => []
  | RunOutcome.closed :: rest => LoopAction.connect :: start_websocket rest
  | RunOutcome.interrupted :: _ =>
    [LoopAction.connect, LoopAction.logAction LogEntry.infoShutdown]
  | RunOutcome.failed _ :: rest =>
    LoopAction.connect :: LoopAction.logAction LogEntry.exceptionReconnect ::
      LoopAction.sleep 5 :: start_websocket rest

/-- Whether `start_websocket` returns (cleanly) within the given prefix of
outcomes: the `while True` loop only breaks on `KeyboardInterrupt`. -/
def websocket_returns : List RunOutcome → Bool
  | [] => false
  | RunOutcome.interrupted :: _ => true
  | _ :: rest => websocket_returns rest

/-- Number of connection attempts in a trace. -/
def connectCount : List LoopAction → Nat
  | [] => 0
  | LoopAction.connect :: rest => 1 + connectCount rest
  | _ :: rest => connectCount rest

/-- A lookup succeeded (did not raise). -/
def pathOk (e : Except String JVal) : Prop := ∃ v, e = Except.ok v

/-- A malformed message: the text is not valid JSON (`none`), or one of
the required nested paths `data`, `data.properties`, `data.geometry`,
`data.geometry.coordinates` is missing (its subscript raises). -/
def malformedMessage (msg : Option JVal) : Prop :=
  msg = none ∨
    ∃ j, msg = some j ∧
      (¬ pathOk (jGetKey j "data") ∨
        ∃ d, jGetKey j "data" = Except.ok d ∧
          (¬ pathOk (jGetKey d "properties") ∨
            ¬ pathOk (jGetKey d "geometry") ∨
            ∃ g, jGetKey d "geometry" = Except.ok g ∧
              ¬ pathOk (jGetKey g "coordinates")))

/-- Properties dict of a concrete well-formed sample message. -/
def sampleProps : List (String × JVal) :=
  [("auth", JVal.str "EMSC"), ("unid", JVal.str "x1"),
   ("time", JVal.str "2024-01-01T00:00:00Z"), ("mag", JVal.num 5),
   ("flynn_region", JVal.str "AEGEAN SEA")]

/-- Geometry object of the sample message: `[longitude, latitude]`. -/
def sampleGeom : JVal :=
  JVal.obj [("coordinates", JVal.arr [JVal.num 23, JVal.num 37])]

/-- The `data` object of the sample message. -/
def sampleData : JVal :=
  JVal.obj [("properties", JVal.obj sampleProps), ("geometry", sampleGeom)]

/-- A concrete well-formed sample message. -/
def sampleMsg : JVal :=
  JVal.obj [("action", JVal.str "create"), ("data", sampleData)]

/-- A message that is well-formed except that its coordinate array has a
single element. -/
def shortMsg : JVal :=
  JVal.obj [("action", JVal.str "create"),
    ("data", JVal.obj [("properties", JVal.obj []),
      ("geometry", JVal.obj [("coordinates", JVal.arr [JVal.num 23])])])]

/-- The store right after bootstrap: just the header row. -/
def initFile : CSVFile := ⟨[csvHeader.map JVal.str]⟩

/-- A concrete structured address whose `city` key is absent but whose
`town` and `country` keys are present. -/
def sampleAddress : Address := ⟨[("town", "Springfield"), ("country", "US")]⟩

/-- A well-formed message whose properties dict has none of the optional
fields. -/
def bareMsg : JVal :=
  JVal.obj [("action", JVal.str "update"),
    ("data", JVal.obj [("properties", JVal.obj []),
      ("geometry", JVal.obj [("coordinates", JVal.arr [JVal.num 23, JVal.num 37])])])]

/-- A concrete event record. -/
def sampleEvent : EventData :=
  { action := JVal.str "create", auth := JVal.str "EMSC", unid := JVal.str "x1",
    time := JVal.str "2024-01-01T00:00:00Z", mag := JVal.num 5,
    flynn_region := JVal.str "AEGEAN SEA", latitude := JVal.num 37,
    longitude := JVal.num 23, city := "Athens", state := "Attica",
    country := "Greece" }

/-! ## Helper lemmas -/

lemma process_message_parse_error {msg : Option JVal} {e : String}
    (h : parse_event msg = Except.error e) (geo : GeoOutcome) (w : WriteOutcome)
    (fs : Option CSVFile) :
    process_message msg geo w fs = ⟨fs, [LogEntry.exceptionProcessing], false⟩ := by
  simp [process_message, h]

lemma parse_event_wellformed {j d geom : JVal} {pfs : List (String × JVal)}
    {act : JVal} {cs : List JVal} {lat lon : JVal}
    (hd : jGetKey j "data" = Except.ok d)
    (hp : jGetKey d "properties" = Except.ok (JVal.obj pfs))
    (ha : jGetKey j "action" = Except.ok act)
    (hg : jGetKey d "geometry" = Except.ok geom)
    (hc : jGetKey geom "coordinates" = Except.ok (JVal.arr cs))
    (h1 : cs.get? 1 = some lat)
    (h0 : cs.get? 0 = some lon) :
    parse_event (some j) = Except.ok (setKey pfs "action" act, lat, lon) := by
  simp only [parse_event, hd, hp, ha, hg, hc, dictSet, jIndex, h1, h0]

lemma process_message_wellformed {j d geom : JVal} {pfs : List (String × JVal)}
    {act : JVal} {cs : List JVal} {lat lon : JVal}
    (hd : jGetKey j "data" = Except.ok d)
    (hp : jGetKey d "properties" = Except.ok (JVal.obj pfs))
    (ha : jGetKey j "action" = Except.ok act)
    (hg : jGetKey d "geometry" = Except.ok geom)
    (hc : jGetKey geom "coordinates" = Except.ok (JVal.arr cs))
    (h1 : cs.get? 1 = some lat)
    (h0 : cs.get? 0 = some lon)
    (geo : GeoOutcome) (f : CSVFile) :
    process_message (some j) geo WriteOutcome.ok (some f) =
      ⟨some ⟨f.rows ++
          [(build_event (setKey pfs "action" act) lat lon
              (get_location geo lat lon).1).toRow]⟩,
       (get_location geo lat lon).2 ++
         [LogEntry.infoEventSaved
            (build_event (setKey pfs "action" act) lat lon
              (get_location geo lat lon).1)],
       false⟩ := by
  have hpe := parse_event_wellformed hd hp ha hg hc h1 h0
  simp [process_message, hpe, save_to_csv, appendRowTo]

lemma parse_event_ok_paths {j : JVal} {r : List (String × JVal) × JVal × JVal}
    (h : parse_event (some j) = Except.ok r) :
    ∃ d, jGetKey j "data" = Except.ok d ∧
      (∃ p, jGetKey d "properties" = Except.ok p) ∧
      (∃ g, jGetKey d "geometry" = Except.ok g ∧
        ∃ c, jGetKey g "coordinates" = Except.ok c) := by
  unfold parse_event at h
  cases hdd : jGetKey j "data" with
  | error e => simp [hdd] at h
  | ok d =>
    simp only [hdd] at h
    cases hpp : jGetKey d "properties" with
    | error e => simp [hpp] at h
    | ok p =>
      simp only [hpp] at h
      cases haa : jGetKey j "action" with
      | error e => simp [haa] at h
      | ok act =>
        simp only [haa] at h
        cases hss : dictSet p "action" act with
        | error e => simp [hss] at h
        | ok info =>
          simp only [hss] at h
          cases hgg : jGetKey d "geometry" with
          | error e => simp [hgg] at h
          | ok g =>
            simp only [hgg] at h
            cases hcc : jGetKey g "coordinates" with
            | error e => simp [hcc] at h
            | ok c =>
              exact ⟨d, rfl, ⟨p, hpp⟩, g, hgg, c, hcc⟩

lemma find?_setKey_none (pfs : List (String × JVal)) (k k' : String) (v : JVal)
    (hkk : (k == k') = false)
    (habs : pfs.find? (fun p => p.1 == k') = none) :
    (setKey pfs k v).find? (fun p => p.1 == k') = none := by
  induction pfs with
  | nil => simp [setKey, List.find?, hkk]
  | cons p rest ih =>
    obtain ⟨a, w⟩ := p
    cases hpa : (a == k') with
    | true => simp [List.find?, hpa] at habs
    | false =>
      simp only [List.find?, hpa] at habs
      cases haak : (a == k) with
      | true => simp [setKey, haak, List.find?, hkk, habs]
      | false => simp [setKey, haak, List.find?, hpa, ih habs]

lemma objGet_setKey_null (pfs : List (String × JVal)) (k k' : String) (v : JVal)
    (hkk : (k == k') = false)
    (habs : pfs.find? (fun p => p.1 == k') = none) :
    objGet (setKey pfs k v) k' = JVal.null := by
  simp [objGet, find?_setKey_none pfs k k' v hkk habs]

lemma saveAll_some (evs : List EventData) :
    ∀ f : CSVFile, saveAll evs (some f) = some ⟨f.rows ++ evs.map EventData.toRow⟩ := by
  induction evs with
  | nil =>
    intro f
    cases f
    simp [saveAll]
  | cons ev rest ih =>
    intro f
    simp [saveAll, save_to_csv, appendRowTo, ih]

/-! ## Claim theorems -/

/-- C1: for every well-formed input message (top-level `action`,
`data.properties`, and `data.geometry.coordinates` holding at least two
numbers), the persisted record's `latitude` field is the second element of
the coordinate array and its `longitude` field is the first element. -/
theorem process_message_latlon_swap (j d geom : JVal)
    (pfs : List (String × JVal)) (act : JVal) (cs : List JVal)
    (lat0 lon0 : Rat)
    (hd : jGetKey j "data" = Except.ok d)
    (hp : jGetKey d "properties" = Except.ok (JVal.obj pfs))
    (ha : jGetKey j "action" = Except.ok act)
    (hg : jGetKey d "geometry" = Except.ok geom)
    (hc : jGetKey geom "coordinates" = Except.ok (JVal.arr cs))
    (h1 : cs.get? 1 = some (JVal.num lat0))
    (h0 : cs.get? 0 = some (JVal.num lon0))
    (geo : GeoOutcome) (f : CSVFile) :
    ∃ ev : EventData, ∃ logs : List LogEntry,
      process_message (some j) geo WriteOutcome.ok (some f) =
        ⟨some ⟨f.rows ++ [ev.toRow]⟩, logs, false⟩ ∧
      ev.latitude = JVal.num lat0 ∧ ev.longitude = JVal.num lon0 := by
  exact ⟨_, _, process_message_wellformed hd hp ha hg hc h1 h0 geo f, rfl, rfl⟩

/-- Witness for C1 at the concrete sample message. -/
theorem process_message_latlon_swap_witness :
    ∃ ev : EventData, ∃ logs : List LogEntry,
      process_message (some sampleMsg) GeoOutcome.noLocation WriteOutcome.ok
          (some initFile) =
        ⟨some ⟨initFile.rows ++ [ev.toRow]⟩, logs, false⟩ ∧
      ev.latitude = JVal.num 37 ∧ ev.longitude = JVal.num 23 :=
  process_message_latlon_swap sampleMsg sampleData sampleGeom sampleProps
    (JVal.str "create") [JVal.num 23, JVal.num 37] 37 23
    rfl rfl rfl rfl rfl rfl rfl GeoOutcome.noLocation initFile

/-- C2: for every malformed message (invalid JSON or a missing required
nested path), `process_message` appends no row to the store, logs at the
`exception` severity (full error context), and raises nothing to its
caller (the `raised` flag of the result is `false`). -/
theorem process_message_malformed_drops (msg : Option JVal) (geo : GeoOutcome)
    (w : WriteOutcome) (fs : Option CSVFile) (h : malformedMessage msg) :
    process_message msg geo w fs = ⟨fs, [LogEntry.exceptionProcessing], false⟩ ∧
    LogEntry.exceptionProcessing.level = LogLevel.exception := by
  refine ⟨?_, rfl⟩
  cases hpe : parse_event msg with
  | error e => exact process_message_parse_error hpe geo w fs
  | ok r =>
    exfalso
    rcases h with hnone | ⟨j, hj, hbad⟩
    · subst hnone
      simp [parse_event] at hpe
    · subst hj
      obtain ⟨d, hdd, ⟨p, hpp⟩, g, hgg, c, hcc⟩ := parse_event_ok_paths hpe
      rcases hbad with hbad | ⟨d2, hd2, hbad⟩
      · exact hbad ⟨d, hdd⟩
      · rw [hdd] at hd2
        injection hd2 with hd2e
        subst hd2e
        rcases hbad with hbad | hbad | ⟨g2, hg2, hbad⟩
        · exact hbad ⟨p, hpp⟩
        · exact hbad ⟨g, hgg⟩
        · rw [hgg] at hg2
          injection hg2 with hg2e
          subst hg2e
          exact hbad ⟨c, hcc⟩

/-- Witness for C2 at a concrete malformed message (a JSON object without
the `data` key). -/
theorem process_message_malformed_drops_witness :
    process_message (some (JVal.obj [])) GeoOutcome.noLocation WriteOutcome.ok
        (some initFile) =
      ⟨some initFile, [LogEntry.exceptionProcessing], false⟩ ∧
    LogEntry.exceptionProcessing.level = LogLevel.exception :=
  process_message_malformed_drops _ _ _ _
    (Or.inr ⟨JVal.obj [], rfl, Or.inl (by
      rintro ⟨v, hv⟩
      simp [jGetKey] at hv)⟩)

/-- C10: when the coordinate array of an otherwise well-formed message has
fewer than two elements, the out-of-range index access raises inside the
`try` block: no row is appended, the error is logged at `exception`
severity, and nothing escapes `process_message`. -/
theorem process_message_short_coordinates_dropped (j d geom : JVal)
    (pfs : List (String × JVal)) (act : JVal) (cs : List JVal)
    (hd : jGetKey j "data" = Except.ok d)
    (hp : jGetKey d "properties" = Except.ok (JVal.obj pfs))
    (ha : jGetKey j "action" = Except.ok act)
    (hg : jGetKey d "geometry" = Except.ok geom)
    (hc : jGetKey geom "coordinates" = Except.ok (JVal.arr cs))
    (hlen : cs.length < 2)
    (geo : GeoOutcome) (w : WriteOutcome) (fs : Option CSVFile) :
    process_message (some j) geo w fs = ⟨fs, [LogEntry.exceptionProcessing], false⟩ ∧
    LogEntry.exceptionProcessing.level = LogLevel.exception := by
  have h1 : cs.get? 1 = none := by
    rw [List.get?_eq_none]
    omega
  have hpe : parse_event (some j) =
      Except.error "IndexError: list index out of range" := by
    simp only [parse_event, hd, hp, ha, hg, hc, dictSet, jIndex, h1]
  exact ⟨process_message_parse_error hpe geo w fs, rfl⟩

/-- Witness for C10 at a concrete message with a one-element coordinate
array. -/
theorem process_message_short_coordinates_dropped_witness :
    process_message (some shortMsg) GeoOutcome.noLocation WriteOutcome.ok
        (some initFile) =
      ⟨some initFile, [LogEntry.exceptionProcessing], false⟩ ∧
    LogEntry.exceptionProcessing.level = LogLevel.exception :=
  process_message_short_coordinates_dropped shortMsg
    (JVal.obj [("properties", JVal.obj []),
      ("geometry", JVal.obj [("coordinates", JVal.arr [JVal.num 23])])])
    (JVal.obj [("coordinates", JVal.arr [JVal.num 23])])
    [] (JVal.str "create") [JVal.num 23]
    rfl rfl rfl rfl rfl (by decide)
    GeoOutcome.noLocation WriteOutcome.ok (some initFile)

/-- C3: the Location Resolver never propagates an error to its caller:
every lookup outcome yields a triple of three strings; a timeout is
logged as a warning and any other lookup failure as an error, each with
the empty-string triple; a structured address yields the extracted
(possibly partial) triple; and on a well-formed message the persisted
record carries exactly that triple in its `city`/`state`/`country`
fields, which are always present. -/
theorem get_location_total_resilient (geo : GeoOutcome) (lat lon : JVal) :
    (geo = GeoOutcome.timeout →
      get_location geo lat lon =
        (("", "", ""), [LogEntry.warnGeocoderTimeout lat lon]) ∧
      (LogEntry.warnGeocoderTimeout lat lon).level = LogLevel.warning) ∧
    (∀ m, geo = GeoOutcome.failure m →
      get_location geo lat lon =
        (("", "", ""), [LogEntry.errorFetchingLocation lat lon m]) ∧
      (LogEntry.errorFetchingLocation lat lon m).level = LogLevel.error) ∧
    (geo = GeoOutcome.noLocation →
      get_location geo lat lon = (("", "", ""), [])) ∧
    (∀ a, geo = GeoOutcome.located (some a) →
      (get_location geo lat lon).1 =
        (a.getD "city" (a.getD "town" (a.getD "village" "")),
         a.getD "state" "", a.getD "country" "")) ∧
    (geo = GeoOutcome.located none →
      (get_location geo lat lon).1 = ("", "", "")) ∧
    (∀ (j d geom : JVal) (pfs : List (String × JVal)) (act : JVal)
        (cs : List JVal) (la lo : JVal) (f : CSVFile),
      jGetKey j "data" = Except.ok d →
      jGetKey d "properties" = Except.ok (JVal.obj pfs) →
      jGetKey j "action" = Except.ok act →
      jGetKey d "geometry" = Except.ok geom →
      jGetKey geom "coordinates" = Except.ok (JVal.arr cs) →
      cs.get? 1 = some la → cs.get? 0 = some lo →
      ∃ ev : EventData, ∃ logs : List LogEntry,
        process_message (some j) geo WriteOutcome.ok (some f) =
          ⟨some ⟨f.rows ++ [ev.toRow]⟩, logs, false⟩ ∧
        (ev.city, ev.state, ev.country) = (get_location geo la lo).1) := by
  refine ⟨?_, ?_, ?_, ?_, ?_, ?_⟩
  · intro h
    subst h
    exact ⟨rfl, rfl⟩
  · intro m h
    subst h
    exact ⟨rfl, rfl⟩
  · intro h
    subst h
    rfl
  · intro a h
    subst h
    rfl
  · intro h
    subst h
    rfl
  · intro j d geom pfs act cs la lo f hd hp ha hg hc h1 h0
    exact ⟨_, _, process_message_wellformed hd hp ha hg hc h1 h0 geo f, rfl⟩

/-- Witness for C3 at the timeout outcome. -/
theorem get_location_total_resilient_witness :
    get_location GeoOutcome.timeout (JVal.num 37) (JVal.num 23) =
      (("", "", ""), [LogEntry.warnGeocoderTimeout (JVal.num 37) (JVal.num 23)]) ∧
    (LogEntry.warnGeocoderTimeout (JVal.num 37) (JVal.num 23)).level =
      LogLevel.warning :=
  (get_location_total_resilient GeoOutcome.timeout (JVal.num 37) (JVal.num 23)).1 rfl

/-- C7: field extraction from a structured address: `city` is taken from
the `city` key, falling back to `town`, then `village`, then the empty
string; `state` and `country` are taken from their own keys with no
fallback chain, defaulting to the empty string when absent. -/
theorem get_location_fallback_chain (lat lon : JVal) (a : Address) :
    (∀ v, a.find "city" = some v →
      ((get_location (GeoOutcome.located (some a)) lat lon).1).1 = v) ∧
    (a.find "city" = none → ∀ v, a.find "town" = some v →
      ((get_location (GeoOutcome.located (some a)) lat lon).1).1 = v) ∧
    (a.find "city" = none → a.find "town" = none →
      ∀ v, a.find "village" = some v →
      ((get_location (GeoOutcome.located (some a)) lat lon).1).1 = v) ∧
    (a.find "city" = none → a.find "town" = none → a.find "village" = none →
      ((get_location (GeoOutcome.located (some a)) lat lon).1).1 = "") ∧
    (∀ v, a.find "state" = some v →
      ((get_location (GeoOutcome.located (some a)) lat lon).1).2.1 = v) ∧
    (a.find "state" = none →
      ((get_location (GeoOutcome.located (some a)) lat lon).1).2.1 = "") ∧
    (∀ v, a.find "country" = some v →
      ((get_location (GeoOutcome.located (some a)) lat lon).1).2.2 = v) ∧
    (a.find "country" = none →
      ((get_location (GeoOutcome.located (some a)) lat lon).1).2.2 = "") := by
  refine ⟨?_, ?_, ?_, ?_, ?_, ?_, ?_, ?_⟩ <;>
  · intros
    simp_all [get_location, Address.getD]

/-- Witness for C7 at a concrete address with `town` and `country` but no
`city`: the fallback picks the town and `state` degrades to empty. -/
theorem get_location_fallback_chain_witness :
    ((get_location (GeoOutcome.located (some sampleAddress))
        (JVal.num 0) (JVal.num 0)).1).1 = "Springfield" ∧
    ((get_location (GeoOutcome.located (some sampleAddress))
        (JVal.num 0) (JVal.num 0)).1).2.1 = "" :=
  ⟨(get_location_fallback_chain (JVal.num 0) (JVal.num 0) sampleAddress).2.1
      rfl "Springfield" rfl,
   (get_location_fallback_chain (JVal.num 0) (JVal.num 0) sampleAddress).2.2.2.2.2.1
      rfl⟩

/-- C4 counterexample: on an I/O error `save_to_csv` returns to its caller
exactly the same value as on success — Python `None` — so no error
indication is returned, refuting the claim that the caller receives one. -/
theorem save_to_csv_no_error_indication :
    (save_to_csv (WriteOutcome.failure "disk full") (some initFile) sampleEvent).ret =
      (save_to_csv WriteOutcome.ok (some initFile) sampleEvent).ret ∧
    (save_to_csv (WriteOutcome.failure "disk full") (some initFile) sampleEvent).ret =
      JVal.null ∧
    (save_to_csv (WriteOutcome.failure "disk full") (some initFile) sampleEvent).raised =
      false :=
  ⟨rfl, rfl, rfl⟩

/-- C4 amended: when the append hits an I/O error, `save_to_csv` logs the
error and returns normally (Python `None`, carrying no error indication)
without raising; the record is lost (the store is unchanged) and the
pipeline continues (a `process_message` call whose write fails still
returns without raising). -/
theorem save_to_csv_error_logged_no_raise (m : String) (fs : Option CSVFile)
    (ev : EventData) (msg : Option JVal) (geo : GeoOutcome) :
    save_to_csv (WriteOutcome.failure m) fs ev =
      ⟨fs, [LogEntry.errorSavingCsv m], JVal.null, false⟩ ∧
    (LogEntry.errorSavingCsv m).level = LogLevel.error ∧
    (process_message msg geo (WriteOutcome.failure m) fs).raised = false := by
  refine ⟨rfl, rfl, ?_⟩
  cases hpe : parse_event msg with
  | error e => simp [process_message, hpe]
  | ok r => simp [process_message, hpe, save_to_csv]

/-- C5: store initialization is idempotent: from no file it creates one
holding exactly the header row of the 11 fixed column names; an existing
file is left untouched; running it twice yields a file with exactly one
header row and no duplicated headers. -/
theorem csv_bootstrap_idempotent :
    csv_bootstrap none = some ⟨[csvHeader.map JVal.str]⟩ ∧
    csvHeader.length = 11 ∧
    (∀ f : CSVFile, csv_bootstrap (some f) = some f) ∧
    (∀ fs : Option CSVFile, csv_bootstrap (csv_bootstrap fs) = csv_bootstrap fs) ∧
    csv_bootstrap (csv_bootstrap none) = some ⟨[csvHeader.map JVal.str]⟩ := by
  refine ⟨rfl, rfl, fun f => rfl, ?_, rfl⟩
  intro fs
  cases fs <;> rfl

/-- C6: append is monotonic: N successful `save_to_csv` calls on an
initialized store yield the previous rows plus exactly the N new rows in
call order, and every written row has the header's 11-column count in the
header's column order (the row is built in header order by
`EventData.toRow`). -/
theorem save_append_monotonic (evs : List EventData) (f : CSVFile) :
    saveAll evs (some f) = some ⟨f.rows ++ evs.map EventData.toRow⟩ ∧
    saveAll evs (csv_bootstrap none) =
      some ⟨csvHeader.map JVal.str :: evs.map EventData.toRow⟩ ∧
    (saveAll evs (csv_bootstrap none)).map (fun g => g.rows.length) =
      some (1 + evs.length) ∧
    (∀ ev : EventData, ev.toRow.length = csvHeader.length) := by
  refine ⟨saveAll_some evs f, saveAll_some evs ⟨[csvHeader.map JVal.str]⟩, ?_,
    fun ev => rfl⟩
  rw [show csv_bootstrap none = some ⟨[csvHeader.map JVal.str]⟩ from rfl,
    saveAll_some evs ⟨[csvHeader.map JVal.str]⟩]
  simp [Nat.add_comm]

/-- C8 counterexample: two abrupt closes in a row (the websocket
library's `run_forever` returning normally each time) produce two
back-to-back connection attempts with no sleep in the trace — the loop
reconnects immediately, refuting the claimed fixed 5-second delay on any
abrupt close. -/
theorem start_websocket_no_delay_on_close :
    start_websocket [RunOutcome.closed, RunOutcome.closed] =
      [LoopAction.connect, LoopAction.connect] ∧
    LoopAction.sleep 5 ∉ start_websocket [RunOutcome.closed, RunOutcome.closed] := by
  refine ⟨rfl, ?_⟩
  simp [start_websocket]

/-- C8 amended: the run loop retries without bound (one connection
attempt per `run_forever` outcome while no interrupt occurs, with no
maximum retry count); an abrupt close from which `run_forever` returns
normally is retried immediately with no delay; an exception escaping
`run_forever` is logged and followed by a 5-second sleep before the next
attempt; and `KeyboardInterrupt` is the only event that makes the loop
return cleanly. -/
theorem start_websocket_retry_behavior (outs rest : List RunOutcome) (m : String) :
    (start_websocket (RunOutcome.closed :: rest) =
      LoopAction.connect :: start_websocket rest) ∧
    (start_websocket (RunOutcome.failed m :: rest) =
      LoopAction.connect :: LoopAction.logAction LogEntry.exceptionReconnect ::
        LoopAction.sleep 5 :: start_websocket rest) ∧
    (start_websocket (RunOutcome.interrupted :: rest) =
      [LoopAction.connect, LoopAction.logAction LogEntry.infoShutdown]) ∧
    (RunOutcome.interrupted ∉ outs →
      connectCount (start_websocket outs) = outs.length) ∧
    (websocket_returns outs = true ↔ RunOutcome.interrupted ∈ outs) := by
  refine ⟨rfl, rfl, rfl, ?_, ?_⟩
  · induction outs with
    | nil => intro _; rfl
    | cons o rest2 ih =>
      intro h
      have hrest : RunOutcome.interrupted ∉ rest2 :=
        fun hm => h (List.mem_cons_of_mem _ hm)
      cases o with
      | closed =>
        simp only [start_websocket, connectCount, ih hrest, List.length_cons]
        omega
      | interrupted => exact absurd (List.mem_cons_self _ _) h
      | failed m2 =>
        simp only [start_websocket, connectCount, ih hrest, List.length_cons]
        omega
  · induction outs with
    | nil => simp [websocket_returns]
    | cons o rest2 ih =>
      cases o with
      | closed => simp [websocket_returns, ih]
      | interrupted => simp [websocket_returns]
      | failed m2 => simp [websocket_returns, ih]

/-- Witness for C8: two non-interrupt outcomes yield two connection
attempts, and an interrupt makes the loop return cleanly. -/
theorem start_websocket_retry_behavior_witness :
    connectCount (start_websocket [RunOutcome.closed, RunOutcome.failed "boom"]) = 2 ∧
    websocket_returns [RunOutcome.closed, RunOutcome.interrupted] = true :=
  ⟨(start_websocket_retry_behavior [RunOutcome.closed, RunOutcome.failed "boom"]
      [] "boom").2.2.2.1 (by simp),
   (start_websocket_retry_behavior [RunOutcome.closed, RunOutcome.interrupted]
      [] "x").2.2.2.2.mpr (by simp)⟩

/-- C9: a message whose JSON parses with the required paths present is
persisted even when the optional property fields are absent: each absent
field among `auth`, `unid`, `time`, `mag`, `flynn_region` is stored as
Python `None` (`JVal.null`), which differs from the empty string, and the
row is still appended. -/
theorem process_message_optional_fields_null (j d geom : JVal)
    (pfs : List (String × JVal)) (act : JVal) (cs : List JVal) (la lo : JVal)
    (hd : jGetKey j "data" = Except.ok d)
    (hp : jGetKey d "properties" = Except.ok (JVal.obj pfs))
    (ha : jGetKey j "action" = Except.ok act)
    (hg : jGetKey d "geometry" = Except.ok geom)
    (hc : jGetKey geom "coordinates" = Except.ok (JVal.arr cs))
    (h1 : cs.get? 1 = some la)
    (h0 : cs.get? 0 = some lo)
    (geo : GeoOutcome) (f : CSVFile) :
    ∃ ev : EventData, ∃ logs : List LogEntry,
      process_message (some j) geo WriteOutcome.ok (some f) =
        ⟨some ⟨f.rows ++ [ev.toRow]⟩, logs, false⟩ ∧
      (pfs.find? (fun p => p.1 == "auth") = none → ev.auth = JVal.null) ∧
      (pfs.find? (fun p => p.1 == "unid") = none → ev.unid = JVal.null) ∧
      (pfs.find? (fun p => p.1 == "time") = none → ev.time = JVal.null) ∧
      (pfs.find? (fun p => p.1 == "mag") = none → ev.mag = JVal.null) ∧
      (pfs.find? (fun p => p.1 == "flynn_region") = none →
        ev.flynn_region = JVal.null) ∧
      JVal.null ≠ JVal.str "" := by
  refine ⟨_, _, process_message_wellformed hd hp ha hg hc h1 h0 geo f,
    ?_, ?_, ?_, ?_, ?_, fun h => nomatch h⟩
  · intro habs
    exact objGet_setKey_null pfs "action" "auth" act (by decide) habs
  · intro habs
    exact objGet_setKey_null pfs "action" "unid" act (by decide) habs
  · intro habs
    exact objGet_setKey_null pfs "action" "time" act (by decide) habs
  · intro habs
    exact objGet_setKey_null pfs "action" "mag" act (by decide) habs
  · intro habs
    exact objGet_setKey_null pfs "action" "flynn_region" act (by decide) habs

/-- Witness for C9 at a concrete message with an empty properties dict. -/
theorem process_message_optional_fields_null_witness :
    ∃ ev : EventData, ∃ logs : List LogEntry,
      process_message (some bareMsg) GeoOutcome.noLocation WriteOutcome.ok
          (some initFile) =
        ⟨some ⟨initFile.rows ++ [ev.toRow]⟩, logs, false⟩ ∧
      (([] : List (String × JVal)).find? (fun p => p.1 == "auth") = none →
        ev.auth = JVal.null) ∧
      (([] : List (String × JVal)).find? (fun p => p.1 == "unid") = none →
        ev.unid = JVal.null) ∧
      (([] : List (String × JVal)).find? (fun p => p.1 == "time") = none →
        ev.time = JVal.null) ∧
      (([] : List (String × JVal)).find? (fun p => p.1 == "mag") = none →
        ev.mag = JVal.null) ∧
      (([] : List (String × JVal)).find? (fun p => p.1 == "flynn_region") = none →
        ev.flynn_region = JVal.null) ∧
      JVal.null ≠ JVal.str "" :=
  process_message_optional_fields_null bareMsg
    (JVal.obj [("properties", JVal.obj []),
      ("geometry", JVal.obj [("coordinates", JVal.arr [JVal.num 23, JVal.num 37])])])
    (JVal.obj [("coordinates", JVal.arr [JVal.num 23, JVal.num 37])])
    [] (JVal.str "update") [JVal.num 23, JVal.num 37] (JVal.num 37) (JVal.num 23)
    rfl rfl rfl rfl rfl rfl rfl GeoOutcome.noLocation initFile

end Seismic
